import Mathlib

/-!
Verification of the `unftp-sbe-restrict` crate: a permission-checking overlay
(`RestrictingVfs`) over a pluggable storage back-end, together with its
bitflags permission set (`VfsOperations`).

The embedding is shallow: the bitflags type becomes a structure over `Nat`
bits, the delegate back-end becomes a record of explicit state-passing
functions, and each overlay method is translated directly from
`src/lib.rs`.
-/

/-- Paths, as passed through the storage contract (`AsRef<Path>`). -/
abbrev FsPath := String

/-- A byte cursor (`Cursor<Vec<u8>>`), modelled as the list of bytes. -/
abbrev ByteCursor := List Nat

/-- The FTP operations that can be enabled/disabled for the virtual
filesystem: the `bitflags! VfsOperations: u32` type from `src/lib.rs`. -/
structure VfsOperations where
  bits : Nat
deriving DecidableEq, Repr

/-- If set allows FTP make directory. -/
def VfsOperations.MK_DIR : VfsOperations := ⟨0b00000001⟩

/-- If set allows FTP remove directory. -/
def VfsOperations.RM_DIR : VfsOperations := ⟨0b00000010⟩

/-- If set allows FTP GET i.e. clients can download files. -/
def VfsOperations.GET : VfsOperations := ⟨0b00000100⟩

/-- If set allows FTP PUT i.e. clients can upload files. -/
def VfsOperations.PUT : VfsOperations := ⟨0b00001000⟩

/-- If set allows FTP DELE i.e. clients can remove files. -/
def VfsOperations.DEL : VfsOperations := ⟨0b00010000⟩

/-- If set allows FTP RENAME i.e. clients can rename directories and files. -/
def VfsOperations.RENAME : VfsOperations := ⟨0b00100000⟩

/-- If set allows the extended SITE MD5 command to calculate checksums. -/
def VfsOperations.MD5 : VfsOperations := ⟨0b01000000⟩

/-- If set allows clients to list the contents of a directory. -/
def VfsOperations.LIST : VfsOperations := ⟨0b10000000⟩

/-- Convenience aggregation of all the write operation bits
(`WRITE_OPS = MK_DIR.bits() | RM_DIR.bits() | PUT.bits() | DEL.bits() | RENAME.bits()`). -/
def VfsOperations.WRITE_OPS : VfsOperations :=
  ⟨VfsOperations.MK_DIR.bits ||| VfsOperations.RM_DIR.bits |||
   VfsOperations.PUT.bits ||| VfsOperations.DEL.bits |||
   VfsOperations.RENAME.bits⟩

/-- The empty flag set (`VfsOperations::empty()` of the bitflags crate). -/
def VfsOperations.empty : VfsOperations := ⟨0⟩

/-- Set union (bitflags `|` / `union`): bitwise or of the two bit masks. -/
def VfsOperations.union (a b : VfsOperations) : VfsOperations := ⟨a.bits ||| b.bits⟩

/-- Membership test (bitflags `contains`): true iff every bit of `f` is
present in `s`, i.e. `s.bits & f.bits == f.bits`. -/
def VfsOperations.contains (s f : VfsOperations) : Bool :=
  s.bits &&& f.bits == f.bits

/-- Error kinds of the storage error taxonomy (`libunftp::storage::ErrorKind`).
Modelled from the spec: libunftp is an external collaborator whose error
taxonomy is opaque to this crate (§6, §7); only the permission-denied kind is
constructed by the overlay, the rest stand for arbitrary delegate failures. -/
inductive ErrorKind where
  | PermissionDenied
  | TransientFileNotAvailable
  | PermanentFileNotAvailable
  | LocalError
deriving DecidableEq, Repr

/-- A storage error (`libunftp::storage::Error`). Modelled from the spec:
an error of some kind, optionally carrying additional context; the overlay
constructs the bare permission-denied instance and otherwise propagates
delegate errors verbatim (§6, §7). -/
structure StorageError where
  kind : ErrorKind
  detail : Option String
deriving DecidableEq, Repr

/-- Conversion `ErrorKind::PermissionDenied.into()`: the bare error of the given kind,
carrying no additional context. -/
def ErrorKind.intoErr (k : ErrorKind) : StorageError := ⟨k, none⟩

/-- Error kinds of `std::io::Error`, the error taxonomy of the `nlst`
signature. Modelled from the spec: external taxonomy, opaque except for the
permission-denied kind the overlay constructs (§6, §7). -/
inductive IoErrorKind where
  | PermissionDenied
  | NotFound
  | Other
deriving DecidableEq, Repr

/-- A `std::io::Error`. Modelled from the spec: a kind plus optional
additional context (§6, §7). -/
structure IoError where
  kind : IoErrorKind
  detail : Option String
deriving DecidableEq, Repr

/-- Conversion `std::io::ErrorKind::PermissionDenied.into()`: the bare io error of the
given kind, no additional context. -/
def IoErrorKind.intoErr (k : IoErrorKind) : IoError := ⟨k, none⟩

/-- The result type `libunftp::storage::Result`. -/
abbrev StorageResult (α : Type) := Except StorageError α

/-- The result type `std::result::Result<_, std::io::Error>`, as returned by `nlst`. -/
abbrev IoResult (α : Type) := Except IoError α

/-- A directory entry (`Fileinfo<PathBuf, Meta>`). -/
structure Fileinfo (Meta : Type) where
  path : FsPath
  metadata : Meta
deriving DecidableEq, Repr

/-- The `StorageBackend` contract implemented by the delegate. Each fallible
method is a state-passing function: it takes the delegate's (abstract)
state `σ`, the acting user and the operation arguments, and returns the new
state together with the result. `Stream` abstracts the `AsyncRead` handle
returned by `get`, `Input` the upload source of `put`, `Sink` the output of
`get_into`. -/
structure StorageBackend (User Meta Stream Input Sink σ : Type) where
  name : String
  supported_features : Nat
  metadata : σ → User → FsPath → σ × StorageResult Meta
  md5 : σ → User → FsPath → σ × StorageResult String
  list : σ → User → FsPath → σ × StorageResult (List (Fileinfo Meta))
  list_fmt : σ → User → FsPath → σ × StorageResult ByteCursor
  nlst : σ → User → FsPath → σ × IoResult ByteCursor
  get_into : σ → User → FsPath → Nat → Sink → σ × StorageResult Nat
  get : σ → User → FsPath → Nat → σ × StorageResult Stream
  put : σ → User → Input → FsPath → Nat → σ × StorageResult Nat
  del : σ → User → FsPath → σ × StorageResult Unit
  mkd : σ → User → FsPath → σ × StorageResult Unit
  rename : σ → User → FsPath → FsPath → σ × StorageResult Unit
  rmd : σ → User → FsPath → σ × StorageResult Unit
  cwd : σ → User → FsPath → σ × StorageResult Unit

/-- The `UserWithPermissions` trait: a single accessor returning the
permissions given to the user. Passed explicitly to each overlay method,
standing for the trait dictionary. -/
structure UserWithPermissions (User : Type) where
  permissions : User → VfsOperations

/-- A virtual filesystem that checks if the user has permissions to do its
operations before it delegates to another storage back-end. The two
`PhantomData` markers of the source are zero-sized and modelled by `Unit`
fields. -/
structure RestrictingVfs (User Meta Stream Input Sink σ : Type) where
  delegate : StorageBackend User Meta Stream Input Sink σ
  x : Unit
  y : Unit

/-- Creates a new instance of `RestrictingVfs`. -/
def RestrictingVfs.new {User Meta Stream Input Sink σ : Type}
    (delegate : StorageBackend User Meta Stream Input Sink σ) :
    RestrictingVfs User Meta Stream Input Sink σ :=
  { delegate := delegate, x := (), y := () }

variable {User Meta Stream Input Sink σ : Type}

/-- Method `fn name(&self) -> &str`: forwards to the delegate. -/
def RestrictingVfs.name (self : RestrictingVfs User Meta Stream Input Sink σ) : String :=
  self.delegate.name

/-- Method `fn supported_features(&self) -> u32`: forwards to the delegate. -/
def RestrictingVfs.supported_features
    (self : RestrictingVfs User Meta Stream Input Sink σ) : Nat :=
  self.delegate.supported_features

/-- Method `metadata`: unguarded, always forwards to the delegate. -/
def RestrictingVfs.metadata (self : RestrictingVfs User Meta Stream Input Sink σ)
    (_inst : UserWithPermissions User) (s : σ) (user : User) (path : FsPath) :
    σ × StorageResult Meta :=
  self.delegate.metadata s user path

/-- Method `md5`: guarded by `VfsOperations::MD5`. -/
def RestrictingVfs.md5 (self : RestrictingVfs User Meta Stream Input Sink σ)
    (inst : UserWithPermissions User) (s : σ) (user : User) (path : FsPath) :
    σ × StorageResult String :=
  if (inst.permissions user).contains VfsOperations.MD5 then
    self.delegate.md5 s user path
  else
    (s, Except.error ErrorKind.PermissionDenied.intoErr)

/-- Method `list`: guarded by `VfsOperations::LIST`. -/
def RestrictingVfs.list (self : RestrictingVfs User Meta Stream Input Sink σ)
    (inst : UserWithPermissions User) (s : σ) (user : User) (path : FsPath) :
    σ × StorageResult (List (Fileinfo Meta)) :=
  if (inst.permissions user).contains VfsOperations.LIST then
    self.delegate.list s user path
  else
    (s, Except.error ErrorKind.PermissionDenied.intoErr)

/-- Method `list_fmt`: guarded by `VfsOperations::LIST`. -/
def RestrictingVfs.list_fmt (self : RestrictingVfs User Meta Stream Input Sink σ)
    (inst : UserWithPermissions User) (s : σ) (user : User) (path : FsPath) :
    σ × StorageResult ByteCursor :=
  if (inst.permissions user).contains VfsOperations.LIST then
    self.delegate.list_fmt s user path
  else
    (s, Except.error ErrorKind.PermissionDenied.intoErr)

/-- Method `nlst`: guarded by `VfsOperations::LIST`; denial is constructed in the
`std::io` error taxonomy of its signature. -/
def RestrictingVfs.nlst (self : RestrictingVfs User Meta Stream Input Sink σ)
    (inst : UserWithPermissions User) (s : σ) (user : User) (path : FsPath) :
    σ × IoResult ByteCursor :=
  if (inst.permissions user).contains VfsOperations.LIST then
    self.delegate.nlst s user path
  else
    (s, Except.error IoErrorKind.PermissionDenied.intoErr)

/-- Method `get_into`: guarded by `VfsOperations::GET`. -/
def RestrictingVfs.get_into (self : RestrictingVfs User Meta Stream Input Sink σ)
    (inst : UserWithPermissions User) (s : σ) (user : User) (path : FsPath)
    (start_pos : Nat) (output : Sink) : σ × StorageResult Nat :=
  if (inst.permissions user).contains VfsOperations.GET then
    self.delegate.get_into s user path start_pos output
  else
    (s, Except.error ErrorKind.PermissionDenied.intoErr)

/-- Method `get`: guarded by `VfsOperations::GET`. -/
def RestrictingVfs.get (self : RestrictingVfs User Meta Stream Input Sink σ)
    (inst : UserWithPermissions User) (s : σ) (user : User) (path : FsPath)
    (start_pos : Nat) : σ × StorageResult Stream :=
  if (inst.permissions user).contains VfsOperations.GET then
    self.delegate.get s user path start_pos
  else
    (s, Except.error ErrorKind.PermissionDenied.intoErr)

/-- Method `put`: guarded by `VfsOperations::PUT`. -/
def RestrictingVfs.put (self : RestrictingVfs User Meta Stream Input Sink σ)
    (inst : UserWithPermissions User) (s : σ) (user : User) (input : Input)
    (path : FsPath) (start_pos : Nat) : σ × StorageResult Nat :=
  if (inst.permissions user).contains VfsOperations.PUT then
    self.delegate.put s user input path start_pos
  else
    (s, Except.error ErrorKind.PermissionDenied.intoErr)

/-- Method `del`: guarded by `VfsOperations::DEL`. -/
def RestrictingVfs.del (self : RestrictingVfs User Meta Stream Input Sink σ)
    (inst : UserWithPermissions User) (s : σ) (user : User) (path : FsPath) :
    σ × StorageResult Unit :=
  if (inst.permissions user).contains VfsOperations.DEL then
    self.delegate.del s user path
  else
    (s, Except.error ErrorKind.PermissionDenied.intoErr)

/-- Method `mkd`: guarded by `VfsOperations::MK_DIR`. -/
def RestrictingVfs.mkd (self : RestrictingVfs User Meta Stream Input Sink σ)
    (inst : UserWithPermissions User) (s : σ) (user : User) (path : FsPath) :
    σ × StorageResult Unit :=
  if (inst.permissions user).contains VfsOperations.MK_DIR then
    self.delegate.mkd s user path
  else
    (s, Except.error ErrorKind.PermissionDenied.intoErr)

/-- Method `rename`: guarded by `VfsOperations::RENAME` alone, for both paths. -/
def RestrictingVfs.rename (self : RestrictingVfs User Meta Stream Input Sink σ)
    (inst : UserWithPermissions User) (s : σ) (user : User) (src : FsPath)
    (dst : FsPath) : σ × StorageResult Unit :=
  if (inst.permissions user).contains VfsOperations.RENAME then
    self.delegate.rename s user src dst
  else
    (s, Except.error ErrorKind.PermissionDenied.intoErr)

/-- Method `rmd`: guarded by `VfsOperations::RM_DIR`. -/
def RestrictingVfs.rmd (self : RestrictingVfs User Meta Stream Input Sink σ)
    (inst : UserWithPermissions User) (s : σ) (user : User) (path : FsPath) :
    σ × StorageResult Unit :=
  if (inst.permissions user).contains VfsOperations.RM_DIR then
    self.delegate.rmd s user path
  else
    (s, Except.error ErrorKind.PermissionDenied.intoErr)

/-- Method `cwd`: unguarded, always forwards to the delegate. -/
def RestrictingVfs.cwd (self : RestrictingVfs User Meta Stream Input Sink σ)
    (_inst : UserWithPermissions User) (s : σ) (user : User) (path : FsPath) :
    σ × StorageResult Unit :=
  self.delegate.cwd s user path

/-- A recording test double: a delegate over state `Nat` in which every
method bumps the state by one, so the state counts delegate invocations. -/
def probe : StorageBackend Unit Unit Unit Unit Unit Nat :=
  { name := "probe"
    supported_features := 3
    metadata := fun s _ _ => (s + 1, Except.ok ())
    md5 := fun s _ _ => (s + 1, Except.ok "d41d8cd98f")
    list := fun s _ _ => (s + 1, Except.ok [])
    list_fmt := fun s _ _ => (s + 1, Except.ok [10])
    nlst := fun s _ _ => (s + 1, Except.ok [10])
    get_into := fun s _ _ _ _ => (s + 1, Except.ok 0)
    get := fun s _ _ _ => (s + 1, Except.ok ())
    put := fun s _ _ _ _ => (s + 1, Except.ok 0)
    del := fun s _ _ => (s + 1, Except.ok ())
    mkd := fun s _ _ => (s + 1, Except.ok ())
    rename := fun s _ _ _ => (s + 1, Except.ok ())
    rmd := fun s _ _ => (s + 1, Except.ok ())
    cwd := fun s _ _ => (s + 1, Except.ok ()) }

/-- A failing test double: every fallible method bumps the state and fails
with a delegate-specific error carrying context, to observe that delegate
errors pass through the overlay verbatim. -/
def failingProbe : StorageBackend Unit Unit Unit Unit Unit Nat :=
  { name := "failing"
    supported_features := 0
    metadata := fun s _ _ => (s + 1, Except.error ⟨ErrorKind.PermanentFileNotAvailable, some "missing"⟩)
    md5 := fun s _ _ => (s + 1, Except.error ⟨ErrorKind.LocalError, some "disk"⟩)
    list := fun s _ _ => (s + 1, Except.error ⟨ErrorKind.LocalError, some "disk"⟩)
    list_fmt := fun s _ _ => (s + 1, Except.error ⟨ErrorKind.LocalError, some "disk"⟩)
    nlst := fun s _ _ => (s + 1, Except.error ⟨IoErrorKind.Other, some "disk"⟩)
    get_into := fun s _ _ _ _ => (s + 1, Except.error ⟨ErrorKind.TransientFileNotAvailable, some "busy"⟩)
    get := fun s _ _ _ => (s + 1, Except.error ⟨ErrorKind.PermanentFileNotAvailable, some "missing"⟩)
    put := fun s _ _ _ _ => (s + 1, Except.error ⟨ErrorKind.LocalError, some "full"⟩)
    del := fun s _ _ => (s + 1, Except.error ⟨ErrorKind.PermanentFileNotAvailable, some "missing"⟩)
    mkd := fun s _ _ => (s + 1, Except.error ⟨ErrorKind.LocalError, some "exists"⟩)
    rename := fun s _ _ _ => (s + 1, Except.error ⟨ErrorKind.PermanentFileNotAvailable, some "missing"⟩)
    rmd := fun s _ _ => (s + 1, Except.error ⟨ErrorKind.LocalError, some "nonempty"⟩)
    cwd := fun s _ _ => (s + 1, Except.error ⟨ErrorKind.PermanentFileNotAvailable, some "missing"⟩) }

/-- The trait dictionary for `Unit` users with a fixed permission set. -/
def constPerms (S : VfsOperations) : UserWithPermissions Unit :=
  ⟨fun _ => S⟩

theorem contains_iff_testBit (S F : VfsOperations) :
    S.contains F = true ↔ ∀ i, F.bits.testBit i = true → S.bits.testBit i = true := by
  unfold VfsOperations.contains
  rw [beq_iff_eq]
  constructor
  · intro h i hF
    have := congrArg (fun n => n.testBit i) h
    simp only [Nat.testBit_land, hF, Bool.and_true] at this
    exact this
  · intro h
    apply Nat.eq_of_testBit_eq
    intro i
    rw [Nat.testBit_land]
    cases hF : F.bits.testBit i with
    | false => simp
    | true => simp [h i hF]

theorem contains_trans {S T F : VfsOperations} (hTS : T.contains S = true)
    (hSF : S.contains F = true) : T.contains F = true := by
  rw [contains_iff_testBit] at *
  intro i hF
  exact hTS i (hSF i hF)

/-- C6: the derived write-operations aggregate `WRITE_OPS` is exactly the
union of the five flags `MK_DIR`, `RM_DIR`, `PUT`, `DEL`, `RENAME`: it equals
that union, contains each of the five, and contains none of the three other
flags `GET`, `MD5`, `LIST`. -/
theorem write_ops_exactly_the_five_write_flags :
    VfsOperations.WRITE_OPS =
      (((VfsOperations.MK_DIR.union VfsOperations.RM_DIR).union
          VfsOperations.PUT).union VfsOperations.DEL).union VfsOperations.RENAME ∧
    VfsOperations.WRITE_OPS.contains VfsOperations.MK_DIR = true ∧
    VfsOperations.WRITE_OPS.contains VfsOperations.RM_DIR = true ∧
    VfsOperations.WRITE_OPS.contains VfsOperations.PUT = true ∧
    VfsOperations.WRITE_OPS.contains VfsOperations.DEL = true ∧
    VfsOperations.WRITE_OPS.contains VfsOperations.RENAME = true ∧
    VfsOperations.WRITE_OPS.contains VfsOperations.GET = false ∧
    VfsOperations.WRITE_OPS.contains VfsOperations.MD5 = false ∧
    VfsOperations.WRITE_OPS.contains VfsOperations.LIST = false := by
  decide

/-- C7: algebra of the `contains` membership test: any union contains its
left operand; the empty set contains no non-empty flag; and in general
`contains set flag` holds iff every bit of `flag` is present in `set`. -/
theorem contains_algebra :
    (∀ A B : VfsOperations, (A.union B).contains A = true) ∧
    (∀ F : VfsOperations, F ≠ VfsOperations.empty →
      VfsOperations.empty.contains F = false) ∧
    (∀ S F : VfsOperations,
      S.contains F = true ↔
        ∀ i, F.bits.testBit i = true → S.bits.testBit i = true) := by
  refine ⟨?_, ?_, contains_iff_testBit⟩
  · intro A B
    unfold VfsOperations.union VfsOperations.contains
    rw [beq_iff_eq]
    apply Nat.eq_of_testBit_eq
    intro i
    rw [Nat.testBit_land, Nat.testBit_lor]
    cases A.bits.testBit i <;> simp
  · intro F hF
    unfold VfsOperations.contains VfsOperations.empty
    rw [Nat.zero_and]
    have hb : F.bits ≠ 0 := by
      intro h0
      apply hF
      cases F
      simp only at h0
      simp [VfsOperations.empty, h0]
    simp only [beq_eq_false_iff_ne, ne_eq]
    exact fun h => hb h.symm

/-- Witness for C7 at concrete sets: the empty set does not contain `GET`,
and `GET ∪ LIST` contains `GET`. -/
theorem contains_algebra_witness :
    VfsOperations.empty.contains VfsOperations.GET = false ∧
    (VfsOperations.GET.union VfsOperations.LIST).contains VfsOperations.GET = true :=
  ⟨contains_algebra.2.1 VfsOperations.GET (by decide),
   contains_algebra.1 VfsOperations.GET VfsOperations.LIST⟩

/-- C10: every permission set, the empty one included, contains the empty
flag group, so only a flag with at least one bit can ever fail the
membership test behind a denial. -/
theorem contains_empty_flag_always_true :
    (∀ S : VfsOperations, S.contains VfsOperations.empty = true) ∧
    (∀ S F : VfsOperations, S.contains F = false → F ≠ VfsOperations.empty) := by
  constructor
  · intro S
    unfold VfsOperations.contains VfsOperations.empty
    rw [Nat.and_zero]
    rfl
  · intro S F h he
    rw [he] at h
    unfold VfsOperations.contains VfsOperations.empty at h
    rw [Nat.and_zero] at h
    simp at h

/-- Witness for C10: the empty set contains the empty flag group, and the
flag `PUT`, which can cause a denial, is non-empty. -/
theorem contains_empty_flag_always_true_witness :
    VfsOperations.empty.contains VfsOperations.empty = true ∧
    VfsOperations.PUT ≠ VfsOperations.empty :=
  ⟨contains_empty_flag_always_true.1 VfsOperations.empty,
   contains_empty_flag_always_true.2 VfsOperations.empty VfsOperations.PUT (by decide)⟩

/-- C1: for every guarded operation, a user whose permission set lacks the
required bit gets a permission-denied error, the delegate is not invoked and
its state is unchanged: the call returns exactly the pair of the untouched
incoming state and the bare permission-denied error, for an arbitrary
delegate. -/
theorem denied_ops_no_delegate_no_side_effects
    (I : UserWithPermissions User) (v : RestrictingVfs User Meta Stream Input Sink σ)
    (s : σ) (u : User) (p q : FsPath) (pos : Nat) (inp : Input) (out : Sink) :
    ((I.permissions u).contains VfsOperations.MD5 = false →
      v.md5 I s u p = (s, Except.error ErrorKind.PermissionDenied.intoErr)) ∧
    ((I.permissions u).contains VfsOperations.LIST = false →
      v.list I s u p = (s, Except.error ErrorKind.PermissionDenied.intoErr)) ∧
    ((I.permissions u).contains VfsOperations.LIST = false →
      v.list_fmt I s u p = (s, Except.error ErrorKind.PermissionDenied.intoErr)) ∧
    ((I.permissions u).contains VfsOperations.LIST = false →
      v.nlst I s u p = (s, Except.error IoErrorKind.PermissionDenied.intoErr)) ∧
    ((I.permissions u).contains VfsOperations.GET = false →
      v.get I s u p pos = (s, Except.error ErrorKind.PermissionDenied.intoErr)) ∧
    ((I.permissions u).contains VfsOperations.GET = false →
      v.get_into I s u p pos out = (s, Except.error ErrorKind.PermissionDenied.intoErr)) ∧
    ((I.permissions u).contains VfsOperations.PUT = false →
      v.put I s u inp p pos = (s, Except.error ErrorKind.PermissionDenied.intoErr)) ∧
    ((I.permissions u).contains VfsOperations.DEL = false →
      v.del I s u p = (s, Except.error ErrorKind.PermissionDenied.intoErr)) ∧
    ((I.permissions u).contains VfsOperations.MK_DIR = false →
      v.mkd I s u p = (s, Except.error ErrorKind.PermissionDenied.intoErr)) ∧
    ((I.permissions u).contains VfsOperations.RM_DIR = false →
      v.rmd I s u p = (s, Except.error ErrorKind.PermissionDenied.intoErr)) ∧
    ((I.permissions u).contains VfsOperations.RENAME = false →
      v.rename I s u p q = (s, Except.error ErrorKind.PermissionDenied.intoErr)) := by
  refine ⟨?_, ?_, ?_, ?_, ?_, ?_, ?_, ?_, ?_, ?_, ?_⟩ <;>
    intro h <;>
    simp [RestrictingVfs.md5, RestrictingVfs.list, RestrictingVfs.list_fmt,
      RestrictingVfs.nlst, RestrictingVfs.get, RestrictingVfs.get_into,
      RestrictingVfs.put, RestrictingVfs.del, RestrictingVfs.mkd,
      RestrictingVfs.rmd, RestrictingVfs.rename, h]

/-- Witness for C1: against the recording test double, a user with the empty
permission set is denied `md5` and `del` with the counter still at zero. -/
theorem denied_ops_no_delegate_no_side_effects_witness :
    (RestrictingVfs.new probe).md5 (constPerms VfsOperations.empty) 0 () "a.txt"
      = (0, Except.error ErrorKind.PermissionDenied.intoErr) ∧
    (RestrictingVfs.new probe).del (constPerms VfsOperations.empty) 0 () "a.txt"
      = (0, Except.error ErrorKind.PermissionDenied.intoErr) :=
  ⟨(denied_ops_no_delegate_no_side_effects (constPerms VfsOperations.empty)
      (RestrictingVfs.new probe) 0 () "a.txt" "b" 0 () ()).1 (by decide),
   (denied_ops_no_delegate_no_side_effects (constPerms VfsOperations.empty)
      (RestrictingVfs.new probe) 0 () "a.txt" "b" 0 () ()).2.2.2.2.2.2.2.1 (by decide)⟩

/-- C2: for every guarded operation, a user whose permission set contains the
required bit has the call forwarded to the delegate with the arguments
unchanged, and the overlay's result is exactly the delegate's result — state
and value, delegate errors included. -/
theorem granted_ops_forward_verbatim
    (I : UserWithPermissions User) (v : RestrictingVfs User Meta Stream Input Sink σ)
    (s : σ) (u : User) (p q : FsPath) (pos : Nat) (inp : Input) (out : Sink) :
    ((I.permissions u).contains VfsOperations.MD5 = true →
      v.md5 I s u p = v.delegate.md5 s u p) ∧
    ((I.permissions u).contains VfsOperations.LIST = true →
      v.list I s u p = v.delegate.list s u p) ∧
    ((I.permissions u).contains VfsOperations.LIST = true →
      v.list_fmt I s u p = v.delegate.list_fmt s u p) ∧
    ((I.permissions u).contains VfsOperations.LIST = true →
      v.nlst I s u p = v.delegate.nlst s u p) ∧
    ((I.permissions u).contains VfsOperations.GET = true →
      v.get I s u p pos = v.delegate.get s u p pos) ∧
    ((I.permissions u).contains VfsOperations.GET = true →
      v.get_into I s u p pos out = v.delegate.get_into s u p pos out) ∧
    ((I.permissions u).contains VfsOperations.PUT = true →
      v.put I s u inp p pos = v.delegate.put s u inp p pos) ∧
    ((I.permissions u).contains VfsOperations.DEL = true →
      v.del I s u p = v.delegate.del s u p) ∧
    ((I.permissions u).contains VfsOperations.MK_DIR = true →
      v.mkd I s u p = v.delegate.mkd s u p) ∧
    ((I.permissions u).contains VfsOperations.RM_DIR = true →
      v.rmd I s u p = v.delegate.rmd s u p) ∧
    ((I.permissions u).contains VfsOperations.RENAME = true →
      v.rename I s u p q = v.delegate.rename s u p q) := by
  refine ⟨?_, ?_, ?_, ?_, ?_, ?_, ?_, ?_, ?_, ?_, ?_⟩ <;>
    intro h <;>
    simp [RestrictingVfs.md5, RestrictingVfs.list, RestrictingVfs.list_fmt,
      RestrictingVfs.nlst, RestrictingVfs.get, RestrictingVfs.get_into,
      RestrictingVfs.put, RestrictingVfs.del, RestrictingVfs.mkd,
      RestrictingVfs.rmd, RestrictingVfs.rename, h]

/-- Witness for C2: against the failing test double and a user holding every
bit, `md5` and `put` forward and return the delegate's own error verbatim,
context included. -/
theorem granted_ops_forward_verbatim_witness :
    (RestrictingVfs.new failingProbe).md5 (constPerms ⟨0b11111111⟩) 0 () "a.txt"
      = (1, Except.error ⟨ErrorKind.LocalError, some "disk"⟩) ∧
    (RestrictingVfs.new failingProbe).put (constPerms ⟨0b11111111⟩) 0 () () "a.txt" 0
      = (1, Except.error ⟨ErrorKind.LocalError, some "full"⟩) :=
  ⟨(granted_ops_forward_verbatim (constPerms ⟨0b11111111⟩)
      (RestrictingVfs.new failingProbe) 0 () "a.txt" "b" 0 () ()).1 (by decide),
   (granted_ops_forward_verbatim (constPerms ⟨0b11111111⟩)
      (RestrictingVfs.new failingProbe) 0 () "a.txt" "b" 0 () ()).2.2.2.2.2.2.1 (by decide)⟩

/-- C3: the unguarded operations `metadata`, `cwd`, `name` and
`supported_features` always forward to the delegate and return its result
unchanged, for every user and permission dictionary, the empty set
included. -/
theorem unguarded_ops_always_forward
    (I : UserWithPermissions User) (v : RestrictingVfs User Meta Stream Input Sink σ)
    (s : σ) (u : User) (p : FsPath) :
    v.metadata I s u p = v.delegate.metadata s u p ∧
    v.cwd I s u p = v.delegate.cwd s u p ∧
    v.name = v.delegate.name ∧
    v.supported_features = v.delegate.supported_features :=
  ⟨rfl, rfl, rfl, rfl⟩

/-- C4: every denial, on every guarded operation and for every user lacking
the required bit, is the bare permission-denied error of the operation's
error taxonomy: the same value `⟨PermissionDenied, none⟩` for the ten
storage-error operations, and `⟨PermissionDenied, none⟩` of the io taxonomy
for `nlst` — never any operation-specific kind or added context. -/
theorem denial_error_is_single_bare_kind
    (I : UserWithPermissions User) (v : RestrictingVfs User Meta Stream Input Sink σ)
    (s : σ) (u : User) (p q : FsPath) (pos : Nat) (inp : Input) (out : Sink) :
    ((I.permissions u).contains VfsOperations.MD5 = false →
      (v.md5 I s u p).2 = Except.error ⟨ErrorKind.PermissionDenied, none⟩) ∧
    ((I.permissions u).contains VfsOperations.LIST = false →
      (v.list I s u p).2 = Except.error ⟨ErrorKind.PermissionDenied, none⟩) ∧
    ((I.permissions u).contains VfsOperations.LIST = false →
      (v.list_fmt I s u p).2 = Except.error ⟨ErrorKind.PermissionDenied, none⟩) ∧
    ((I.permissions u).contains VfsOperations.LIST = false →
      (v.nlst I s u p).2 = Except.error ⟨IoErrorKind.PermissionDenied, none⟩) ∧
    ((I.permissions u).contains VfsOperations.GET = false →
      (v.get I s u p pos).2 = Except.error ⟨ErrorKind.PermissionDenied, none⟩) ∧
    ((I.permissions u).contains VfsOperations.GET = false →
      (v.get_into I s u p pos out).2 = Except.error ⟨ErrorKind.PermissionDenied, none⟩) ∧
    ((I.permissions u).contains VfsOperations.PUT = false →
      (v.put I s u inp p pos).2 = Except.error ⟨ErrorKind.PermissionDenied, none⟩) ∧
    ((I.permissions u).contains VfsOperations.DEL = false →
      (v.del I s u p).2 = Except.error ⟨ErrorKind.PermissionDenied, none⟩) ∧
    ((I.permissions u).contains VfsOperations.MK_DIR = false →
      (v.mkd I s u p).2 = Except.error ⟨ErrorKind.PermissionDenied, none⟩) ∧
    ((I.permissions u).contains VfsOperations.RM_DIR = false →
      (v.rmd I s u p).2 = Except.error ⟨ErrorKind.PermissionDenied, none⟩) ∧
    ((I.permissions u).contains VfsOperations.RENAME = false →
      (v.rename I s u p q).2 = Except.error ⟨ErrorKind.PermissionDenied, none⟩) := by
  refine ⟨?_, ?_, ?_, ?_, ?_, ?_, ?_, ?_, ?_, ?_, ?_⟩ <;>
    intro h <;>
    simp [RestrictingVfs.md5, RestrictingVfs.list, RestrictingVfs.list_fmt,
      RestrictingVfs.nlst, RestrictingVfs.get, RestrictingVfs.get_into,
      RestrictingVfs.put, RestrictingVfs.del, RestrictingVfs.mkd,
      RestrictingVfs.rmd, RestrictingVfs.rename, ErrorKind.intoErr,
      IoErrorKind.intoErr, h]

/-- Witness for C4: two different operations denied for two different users
yield the identical bare storage denial error, and a denied `nlst` yields the
bare io denial error. -/
theorem denial_error_is_single_bare_kind_witness :
    ((RestrictingVfs.new probe).md5 (constPerms VfsOperations.LIST) 0 () "a").2
      = Except.error ⟨ErrorKind.PermissionDenied, none⟩ ∧
    ((RestrictingVfs.new probe).rmd (constPerms VfsOperations.GET) 0 () "d").2
      = Except.error ⟨ErrorKind.PermissionDenied, none⟩ ∧
    ((RestrictingVfs.new probe).nlst (constPerms VfsOperations.GET) 0 () "d").2
      = Except.error ⟨IoErrorKind.PermissionDenied, none⟩ :=
  ⟨(denial_error_is_single_bare_kind (constPerms VfsOperations.LIST)
      (RestrictingVfs.new probe) 0 () "a" "b" 0 () ()).1 (by decide),
   (denial_error_is_single_bare_kind (constPerms VfsOperations.GET)
      (RestrictingVfs.new probe) 0 () "d" "b" 0 () ()).2.2.2.2.2.2.2.2.2.1 (by decide),
   (denial_error_is_single_bare_kind (constPerms VfsOperations.GET)
      (RestrictingVfs.new probe) 0 () "d" "b" 0 () ()).2.2.2.1 (by decide)⟩

/-- C5: `rename` consults only the `RENAME` bit: with it present the call
forwards to the delegate (for both paths, unchanged), and the decision is
unchanged under any other permission dictionary agreeing on the `RENAME`
bit alone — no other bit, in particular not `DEL` or `MK_DIR`, is
consulted for either the source or the destination path. -/
theorem rename_requires_only_rename_bit
    (I J : UserWithPermissions User) (v : RestrictingVfs User Meta Stream Input Sink σ)
    (s : σ) (u : User) (src dst : FsPath) :
    ((I.permissions u).contains VfsOperations.RENAME = true →
      v.rename I s u src dst = v.delegate.rename s u src dst) ∧
    ((I.permissions u).contains VfsOperations.RENAME
        = (J.permissions u).contains VfsOperations.RENAME →
      v.rename I s u src dst = v.rename J s u src dst) := by
  constructor
  · intro h
    simp [RestrictingVfs.rename, h]
  · intro h
    unfold RestrictingVfs.rename
    rw [h]

/-- Witness for C5: the set holding only the `RENAME` bit lacks `DEL` and
`MK_DIR`, yet `rename` forwards to the delegate with it. -/
theorem rename_requires_only_rename_bit_witness :
    VfsOperations.RENAME.contains VfsOperations.DEL = false ∧
    VfsOperations.RENAME.contains VfsOperations.MK_DIR = false ∧
    (RestrictingVfs.new probe).rename (constPerms VfsOperations.RENAME) 0 () "a" "b"
      = probe.rename 0 () "a" "b" :=
  ⟨by decide, by decide,
   (rename_requires_only_rename_bit (constPerms VfsOperations.RENAME)
      (constPerms VfsOperations.RENAME) (RestrictingVfs.new probe)
      0 () "a" "b").1 (by decide)⟩

/-- C8: the overlay is stateless for permission decisions: it carries no
runtime state beyond its delegate (every overlay equals `new` of its own
delegate), and each guarded operation reads the user's permissions fresh on
that invocation — two permission dictionaries agreeing on the acting user at
call time produce identical outcomes, so each call is an independent
check-then-forward-or-deny decision determined solely by its arguments. -/
theorem overlay_stateless_fresh_permission_reads
    (I J : UserWithPermissions User) (v : RestrictingVfs User Meta Stream Input Sink σ)
    (s : σ) (u : User) (p q : FsPath) (pos : Nat) (inp : Input) (out : Sink)
    (h : I.permissions u = J.permissions u) :
    v = RestrictingVfs.new v.delegate ∧
    v.md5 I s u p = v.md5 J s u p ∧
    v.list I s u p = v.list J s u p ∧
    v.list_fmt I s u p = v.list_fmt J s u p ∧
    v.nlst I s u p = v.nlst J s u p ∧
    v.get I s u p pos = v.get J s u p pos ∧
    v.get_into I s u p pos out = v.get_into J s u p pos out ∧
    v.put I s u inp p pos = v.put J s u inp p pos ∧
    v.del I s u p = v.del J s u p ∧
    v.mkd I s u p = v.mkd J s u p ∧
    v.rmd I s u p = v.rmd J s u p ∧
    v.rename I s u p q = v.rename J s u p q := by
  obtain ⟨d, x, y⟩ := v
  cases x
  cases y
  refine ⟨rfl, ?_, ?_, ?_, ?_, ?_, ?_, ?_, ?_, ?_, ?_, ?_⟩ <;>
    simp [RestrictingVfs.md5, RestrictingVfs.list, RestrictingVfs.list_fmt,
      RestrictingVfs.nlst, RestrictingVfs.get, RestrictingVfs.get_into,
      RestrictingVfs.put, RestrictingVfs.del, RestrictingVfs.mkd,
      RestrictingVfs.rmd, RestrictingVfs.rename, h]

/-- Witness for C8: a concrete overlay is exactly `new` of its delegate, and
two dictionaries assigning the same set to the acting user give the same
`del` outcome. -/
theorem overlay_stateless_fresh_permission_reads_witness :
    RestrictingVfs.new probe
      = RestrictingVfs.new (RestrictingVfs.new probe).delegate ∧
    (RestrictingVfs.new probe).del (constPerms VfsOperations.DEL) 0 () "a"
      = (RestrictingVfs.new probe).del ⟨fun _ => VfsOperations.DEL⟩ 0 () "a" :=
  ⟨(overlay_stateless_fresh_permission_reads (constPerms VfsOperations.DEL)
      ⟨fun _ => VfsOperations.DEL⟩ (RestrictingVfs.new probe)
      0 () "a" "b" 0 () () rfl).1,
   (overlay_stateless_fresh_permission_reads (constPerms VfsOperations.DEL)
      ⟨fun _ => VfsOperations.DEL⟩ (RestrictingVfs.new probe)
      0 () "a" "b" 0 () () rfl).2.2.2.2.2.2.2.2.1⟩

/-- C9: the gate is monotone in the permission set: against the recording
test double, whenever a guarded operation reaches the delegate (the
invocation counter moves from 0 to 1) under a set `S`, it also reaches the
delegate under any superset `T`; and each operation's outcome depends only
on the presence of its single required bit — dictionaries agreeing on that
one bit give identical results, so adding unrelated bits never changes the
decision. -/
theorem gate_monotone_in_permissions (S T : VfsOperations)
    (hsub : T.contains S = true) (p q : FsPath) (pos : Nat) :
    (((RestrictingVfs.new probe).md5 (constPerms S) 0 () p).1 = 1 →
      ((RestrictingVfs.new probe).md5 (constPerms T) 0 () p).1 = 1) ∧
    (((RestrictingVfs.new probe).list (constPerms S) 0 () p).1 = 1 →
      ((RestrictingVfs.new probe).list (constPerms T) 0 () p).1 = 1) ∧
    (((RestrictingVfs.new probe).list_fmt (constPerms S) 0 () p).1 = 1 →
      ((RestrictingVfs.new probe).list_fmt (constPerms T) 0 () p).1 = 1) ∧
    (((RestrictingVfs.new probe).nlst (constPerms S) 0 () p).1 = 1 →
      ((RestrictingVfs.new probe).nlst (constPerms T) 0 () p).1 = 1) ∧
    (((RestrictingVfs.new probe).get (constPerms S) 0 () p pos).1 = 1 →
      ((RestrictingVfs.new probe).get (constPerms T) 0 () p pos).1 = 1) ∧
    (((RestrictingVfs.new probe).get_into (constPerms S) 0 () p pos ()).1 = 1 →
      ((RestrictingVfs.new probe).get_into (constPerms T) 0 () p pos ()).1 = 1) ∧
    (((RestrictingVfs.new probe).put (constPerms S) 0 () () p pos).1 = 1 →
      ((RestrictingVfs.new probe).put (constPerms T) 0 () () p pos).1 = 1) ∧
    (((RestrictingVfs.new probe).del (constPerms S) 0 () p).1 = 1 →
      ((RestrictingVfs.new probe).del (constPerms T) 0 () p).1 = 1) ∧
    (((RestrictingVfs.new probe).mkd (constPerms S) 0 () p).1 = 1 →
      ((RestrictingVfs.new probe).mkd (constPerms T) 0 () p).1 = 1) ∧
    (((RestrictingVfs.new probe).rmd (constPerms S) 0 () p).1 = 1 →
      ((RestrictingVfs.new probe).rmd (constPerms T) 0 () p).1 = 1) ∧
    (((RestrictingVfs.new probe).rename (constPerms S) 0 () p q).1 = 1 →
      ((RestrictingVfs.new probe).rename (constPerms T) 0 () p q).1 = 1) ∧
    (∀ (User Meta Stream Input Sink σ : Type)
       (I J : UserWithPermissions User)
       (v : RestrictingVfs User Meta Stream Input Sink σ)
       (s : σ) (u : User) (pp qq : FsPath) (pos2 : Nat) (inp : Input) (out : Sink),
       ((I.permissions u).contains VfsOperations.MD5
           = (J.permissions u).contains VfsOperations.MD5 →
         v.md5 I s u pp = v.md5 J s u pp) ∧
       ((I.permissions u).contains VfsOperations.LIST
           = (J.permissions u).contains VfsOperations.LIST →
         v.list I s u pp = v.list J s u pp ∧
         v.list_fmt I s u pp = v.list_fmt J s u pp ∧
         v.nlst I s u pp = v.nlst J s u pp) ∧
       ((I.permissions u).contains VfsOperations.GET
           = (J.permissions u).contains VfsOperations.GET →
         v.get I s u pp pos2 = v.get J s u pp pos2 ∧
         v.get_into I s u pp pos2 out = v.get_into J s u pp pos2 out) ∧
       ((I.permissions u).contains VfsOperations.PUT
           = (J.permissions u).contains VfsOperations.PUT →
         v.put I s u inp pp pos2 = v.put J s u inp pp pos2) ∧
       ((I.permissions u).contains VfsOperations.DEL
           = (J.permissions u).contains VfsOperations.DEL →
         v.del I s u pp = v.del J s u pp) ∧
       ((I.permissions u).contains VfsOperations.MK_DIR
           = (J.permissions u).contains VfsOperations.MK_DIR →
         v.mkd I s u pp = v.mkd J s u pp) ∧
       ((I.permissions u).contains VfsOperations.RM_DIR
           = (J.permissions u).contains VfsOperations.RM_DIR →
         v.rmd I s u pp = v.rmd J s u pp) ∧
       ((I.permissions u).contains VfsOperations.RENAME
           = (J.permissions u).contains VfsOperations.RENAME →
         v.rename I s u pp qq = v.rename J s u pp qq)) := by
  refine ⟨?_, ?_, ?_, ?_, ?_, ?_, ?_, ?_, ?_, ?_, ?_, ?_⟩
  case _ =>
    intro h
    cases hS : S.contains VfsOperations.MD5 with
    | false => simp [RestrictingVfs.md5, constPerms, hS] at h
    | true => simp [RestrictingVfs.new, probe, RestrictingVfs.md5, constPerms, contains_trans hsub hS]
  case _ =>
    intro h
    cases hS : S.contains VfsOperations.LIST with
    | false => simp [RestrictingVfs.list, constPerms, hS] at h
    | true => simp [RestrictingVfs.new, probe, RestrictingVfs.list, constPerms, contains_trans hsub hS]
  case _ =>
    intro h
    cases hS : S.contains VfsOperations.LIST with
    | false => simp [RestrictingVfs.list_fmt, constPerms, hS] at h
    | true => simp [RestrictingVfs.new, probe, RestrictingVfs.list_fmt, constPerms, contains_trans hsub hS]
  case _ =>
    intro h
    cases hS : S.contains VfsOperations.LIST with
    | false => simp [RestrictingVfs.nlst, constPerms, hS] at h
    | true => simp [RestrictingVfs.new, probe, RestrictingVfs.nlst, constPerms, contains_trans hsub hS]
  case _ =>
    intro h
    cases hS : S.contains VfsOperations.GET with
    | false => simp [RestrictingVfs.get, constPerms, hS] at h
    | true => simp [RestrictingVfs.new, probe, RestrictingVfs.get, constPerms, contains_trans hsub hS]
  case _ =>
    intro h
    cases hS : S.contains VfsOperations.GET with
    | false => simp [RestrictingVfs.get_into, constPerms, hS] at h
    | true => simp [RestrictingVfs.new, probe, RestrictingVfs.get_into, constPerms, contains_trans hsub hS]
  case _ =>
    intro h
    cases hS : S.contains VfsOperations.PUT with
    | false => simp [RestrictingVfs.put, constPerms, hS] at h
    | true => simp [RestrictingVfs.new, probe, RestrictingVfs.put, constPerms, contains_trans hsub hS]
  case _ =>
    intro h
    cases hS : S.contains VfsOperations.DEL with
    | false => simp [RestrictingVfs.del, constPerms, hS] at h
    | true => simp [RestrictingVfs.new, probe, RestrictingVfs.del, constPerms, contains_trans hsub hS]
  case _ =>
    intro h
    cases hS : S.contains VfsOperations.MK_DIR with
    | false => simp [RestrictingVfs.mkd, constPerms, hS] at h
    | true => simp [RestrictingVfs.new, probe, RestrictingVfs.mkd, constPerms, contains_trans hsub hS]
  case _ =>
    intro h
    cases hS : S.contains VfsOperations.RM_DIR with
    | false => simp [RestrictingVfs.rmd, constPerms, hS] at h
    | true => simp [RestrictingVfs.new, probe, RestrictingVfs.rmd, constPerms, contains_trans hsub hS]
  case _ =>
    intro h
    cases hS : S.contains VfsOperations.RENAME with
    | false => simp [RestrictingVfs.rename, constPerms, hS] at h
    | true => simp [RestrictingVfs.new, probe, RestrictingVfs.rename, constPerms, contains_trans hsub hS]
  case _ =>
    intro User Meta Stream Input Sink σ I J v s u pp qq pos2 inp out
    refine ⟨?_, ?_, ?_, ?_, ?_, ?_, ?_, ?_⟩ <;>
      intro h <;>
      first
        | (unfold RestrictingVfs.md5; rw [h])
        | (refine ⟨?_, ?_, ?_⟩ <;>
            first
              | (unfold RestrictingVfs.list; rw [h])
              | (unfold RestrictingVfs.list_fmt; rw [h])
              | (unfold RestrictingVfs.nlst; rw [h]))
        | (refine ⟨?_, ?_⟩ <;>
            first
              | (unfold RestrictingVfs.get; rw [h])
              | (unfold RestrictingVfs.get_into; rw [h]))
        | (unfold RestrictingVfs.put; rw [h])
        | (unfold RestrictingVfs.del; rw [h])
        | (unfold RestrictingVfs.mkd; rw [h])
        | (unfold RestrictingVfs.rmd; rw [h])
        | (unfold RestrictingVfs.rename; rw [h])

/-- Witness for C9: `get` reaches the delegate under the set holding only
`GET`, hence also under the superset `GET ∪ PUT`. -/
theorem gate_monotone_in_permissions_witness :
    ((RestrictingVfs.new probe).get
      (constPerms (VfsOperations.GET.union VfsOperations.PUT)) 0 () "f.txt" 0).1 = 1 :=
  (gate_monotone_in_permissions VfsOperations.GET
    (VfsOperations.GET.union VfsOperations.PUT) (by decide)
    "f.txt" "g" 0).2.2.2.2.1 (by decide)
